import Mathlib

/-!
Verification of the remote-backed query translation and multi-backend result
federation layer of the prometheus-engine repository.

Part 1: the Query Translator of the rule evaluator (`queryAccess.Select`).
The implementation file `cmd/rule-evaluator/main.go` is not part of the
source snapshot; only its test `cmd/rule-evaluator/main_test.go` is.  The
translator is therefore modelled from the spec (sections 3, 4.1, 8), with
the concrete strings and the exact error message pinned by `TestSelect`.
-/

namespace PromEngine

/-- Label-matcher kind, mirroring `labels.MatchType` of the Prometheus
label model used by the translator. -/
inductive MatchKind where
  | matchEqual
  | matchNotEqual
  | matchRegexp
  | matchNotRegexp
deriving DecidableEq, Repr

/-- The PromQL operator text of a matcher kind, as `labels.MatchType.String`. -/
def MatchKind.render : MatchKind → String
  | .matchEqual => "="
  | .matchNotEqual => "!="
  | .matchRegexp => "=~"
  | .matchNotRegexp => "!~"

/-- One label matcher: kind, label name, value, as `labels.Matcher`. -/
structure Matcher where
  kind : MatchKind
  lname : String
  lvalue : String
deriving DecidableEq, Repr

/-- A matcher rendered as PromQL text, as `labels.Matcher.String`:
name, operator, then the value in double quotes. -/
def Matcher.render (m : Matcher) : String :=
  m.lname ++ m.kind.render ++ "\"" ++ m.lvalue ++ "\""

/-- Modelled from the spec: the selector rendered as a braces-matcher
expression (section 4.1 item 2), the matchers comma-separated inside
braces, e.g. `\x7b__name__="X"\x7d`. -/
def renderMatchers (ms : List Matcher) : String :=
  "\x7b" ++ String.intercalate "," (ms.map Matcher.render) ++ "\x7d"

/-- One float sample: millisecond timestamp and value, as `promql.FPoint`.
The float value is carried verbatim by the translator and never computed
with, so it is represented exactly as a rational. -/
structure FPoint where
  t : Int
  f : Rat
deriving DecidableEq, Repr

/-- One series of a matrix result: label set plus ordered float points,
as `promql.Series`. -/
structure PromSeries where
  metric : List (String × String)
  floats : List FPoint
deriving DecidableEq, Repr

/-- A tagged query result value, as `parser.Value`: a matrix (series with
point sequences), a vector (one point per series), a scalar or a string. -/
inductive ParserValue where
  | matrix (m : List PromSeries)
  | vector (v : List (List (String × String) × FPoint))
  | scalar (p : FPoint)
  | strValue (t : Int) (s : String)
deriving DecidableEq, Repr

/-- The tag name of a value, as `parser.Value.Type()` renders it. -/
def ParserValue.kindName : ParserValue → String
  | .matrix _ => "matrix"
  | .vector _ => "vector"
  | .scalar _ => "scalar"
  | .strValue _ _ => "string"

/-- What one invocation of the injected query function returns: a tagged
value, a warning list and an optional error, as the Go triple
`(parser.Value, v1.Warnings, error)`.  Go's `nil` value in the error case
is represented by an arbitrary `ParserValue`, which the translator never
inspects when `err` is set. -/
structure QueryReply where
  value : ParserValue
  warnings : List String
  err : Option String
deriving DecidableEq, Repr

/-- The injected query function: query string and evaluation instant
(epoch seconds) to a reply.  Context and API handle are dropped from the
Go signature `func(ctx, q string, t time.Time, api v1.API)`. -/
def QueryFunc : Type := String → Int → QueryReply

/-- The translator's receiver state, as the Go struct `queryAccess`:
the selection range `[mint, maxt]` (epoch seconds, per `TestSelect`)
and the injected query function. -/
structure queryAccess where
  mint : Int
  maxt : Int
  query : QueryFunc

/-- A warning wrapped as an error-shaped annotation, as
`annotations.New().Add(errors.New(w))` wraps each warning string. -/
structure WarnErr where
  msg : String
deriving DecidableEq, Repr

/-- The 1:1 conversion of the reply's warnings into the result's
annotation-set of error-shaped entries. -/
def warningsToErrs (ws : List String) : List WarnErr :=
  ws.map WarnErr.mk

/-- The materialized result of one `Select` call, as the Go struct
`listSeriesSet`: series list, warnings, optional error. -/
structure listSeriesSet where
  m : List PromSeries
  warnings : List WarnErr
  err : Option String
deriving DecidableEq, Repr

/-- Modelled from the spec: the PromQL range-vector expression rendered by
`Select` (section 4.1 item 2): the selector as a braces-matcher expression
suffixed with a duration of `maxt - mint` seconds with an `s` unit, e.g.
`\x7b__name__="X"\x7d[1000s]`, as pinned by `TestSelect`'s expected query. -/
def selectQueryStr (db : queryAccess) (ms : List Matcher) : String :=
  renderMatchers ms ++ "[" ++ toString (db.maxt - db.mint) ++ "s]"

/-- The exact error text for a non-matrix reply value, pinned by
`TestSelect` (src/cmd/rule-evaluator/main_test.go line 144). -/
def expectedMatrixErr (v : ParserValue) : String :=
  "error querying Prometheus, expected type matrix response. actual type " ++ v.kindName

/-- Modelled from the spec: `queryAccess.Select` (absent
`cmd/rule-evaluator/main.go`), instrumented with the list of query-function
invocations it performs, each as `(query string, evaluation instant)`.
Behaviour follows spec section 4.1 with the concrete query string, instant
and error message pinned by `TestSelect`:
1. `mint == maxt` short-circuits to the empty result without any call;
2. otherwise render the range-vector expression and call the query
   function once at instant `maxt`;
3. a reply error is propagated verbatim with an empty series list;
4. a matrix reply is converted verbatim;
5. any other reply value yields the descriptive type error;
6. reply warnings are preserved 1:1 in every non-degenerate branch. -/
def SelectWithCalls (db : queryAccess) (ms : List Matcher) :
    listSeriesSet × List (String × Int) :=
  if db.mint = db.maxt then
    (⟨[], [], none⟩, [])
  else
    let q := selectQueryStr db ms
    let reply := db.query q db.maxt
    let warns := warningsToErrs reply.warnings
    let res : listSeriesSet :=
      match reply.err with
      | some e => ⟨[], warns, some e⟩
      | none =>
        match reply.value with
        | .matrix m => ⟨m, warns, none⟩
        | v => ⟨[], warns, some (expectedMatrixErr v)⟩
    (res, [(q, db.maxt)])

/-- The result of one `Select` call. -/
def Select (db : queryAccess) (ms : List Matcher) : listSeriesSet :=
  (SelectWithCalls db ms).1

/-- The query-function invocations performed by one `Select` call. -/
def selectCalls (db : queryAccess) (ms : List Matcher) : List (String × Int) :=
  (SelectWithCalls db ms).2

/-- C1: for every Select call with a non-degenerate range the injected
query function is invoked exactly once, with the query string equal to the
selector rendered as a braces-matcher expression suffixed by a duration of
`maxt - mint` seconds with an `s` unit suffix, and with the evaluation
instant equal to `maxt`. -/
theorem select_queries_exactly_once (db : queryAccess) (ms : List Matcher)
    (h : db.mint ≠ db.maxt) :
    selectCalls db ms =
      [(renderMatchers ms ++ "[" ++ toString (db.maxt - db.mint) ++ "s]", db.maxt)] := by
  simp [selectCalls, SelectWithCalls, selectQueryStr, if_neg h]

/-- C1 witness: the `TestSelect` success-case range `[1000, 2000]` with the
`__name__="testLabel"` matcher renders `\x7b__name__="testLabel"\x7d[1000s]`
queried at instant `2000`. -/
theorem select_queries_exactly_once_witness :
    selectCalls ⟨1000, 2000, fun _ _ => ⟨.matrix [], [], none⟩⟩
        [⟨.matchEqual, "__name__", "testLabel"⟩] =
      [("\x7b__name__=\"testLabel\"\x7d[1000s]", 2000)] := by
  rw [select_queries_exactly_once _ _ (by decide)]
  rfl

/-- C2: for every Select call with a degenerate range (`mint = maxt`) the
result has an empty series list, no warnings and no error, and the injected
query function is never invoked. -/
theorem select_degenerate_range (db : queryAccess) (ms : List Matcher)
    (h : db.mint = db.maxt) :
    Select db ms = ⟨[], [], none⟩ ∧ selectCalls db ms = [] := by
  constructor <;> simp [Select, selectCalls, SelectWithCalls, if_pos h]

/-- C2 witness: the `TestSelect` degenerate case, a zero `queryAccess`
(`mint = maxt = 0`), yields the empty result and zero remote calls. -/
theorem select_degenerate_range_witness :
    Select ⟨0, 0, fun _ _ => ⟨.matrix [], [], none⟩⟩ [] = ⟨[], [], none⟩ ∧
    selectCalls ⟨0, 0, fun _ _ => ⟨.matrix [], [], none⟩⟩ [] = [] :=
  select_degenerate_range _ _ rfl

/-- Whether `pat` occurs inside the character list (naive scan). -/
def subOccurs (pat : List Char) : List Char → Bool
  | [] => pat.isEmpty
  | c :: rest => pat.isPrefixOf (c :: rest) || subOccurs pat rest

/-- Whether the string `pat` occurs as a contiguous substring of `s`. -/
def strContainsSub (s pat : String) : Bool :=
  subOccurs pat.data s.data

/-- Stub query function returning a vector, as the `TestSelect` case
"queryfunc returns a vector instead of a matrix". -/
def vecQF : QueryFunc := fun _ _ => ⟨.vector [], [], none⟩

/-- The vector-case receiver of `TestSelect`: `mint = 0`, `maxt = 1000`. -/
def qaVec : queryAccess := ⟨0, 1000, vecQF⟩

/-- C3 counterexample: on a vector reply the error message is the exact
text pinned by `TestSelect` — `"error querying Prometheus, expected type
matrix response. actual type vector"` — and the shape claimed by the spec,
`"expected type matrix response, actual type vector"` (comma), does not
occur in it. -/
theorem select_vector_error_shape_cex :
    (Select qaVec []).err =
      some "error querying Prometheus, expected type matrix response. actual type vector" ∧
    strContainsSub ((Select qaVec []).err.getD "")
      "expected type matrix response, actual type vector" = false := by
  decide

/-- C3 (amended): for every Select call where the query function succeeds
with a non-matrix value, the result has an empty series list and the error
`"error querying Prometheus, expected type matrix response. actual type
<kind>"` (a period before "actual", with the "error querying Prometheus"
prefix), which contains the literal actual-type name. -/
theorem select_non_matrix_error (db : queryAccess) (ms : List Matcher)
    (v : ParserValue) (ws : List String)
    (h : db.mint ≠ db.maxt)
    (hq : db.query (selectQueryStr db ms) db.maxt = ⟨v, ws, none⟩)
    (hv : ∀ m, v ≠ .matrix m) :
    (Select db ms).m = [] ∧
    (Select db ms).err =
      some ("error querying Prometheus, expected type matrix response. actual type "
        ++ v.kindName) ∧
    strContainsSub
      ("error querying Prometheus, expected type matrix response. actual type "
        ++ v.kindName) v.kindName = true := by
  cases v with
  | matrix m => exact absurd rfl (hv m)
  | vector xs =>
    refine ⟨?_, ?_, by simp only [ParserValue.kindName]; decide⟩ <;>
      simp [Select, SelectWithCalls, if_neg h, hq, expectedMatrixErr, ParserValue.kindName]
  | scalar p =>
    refine ⟨?_, ?_, by simp only [ParserValue.kindName]; decide⟩ <;>
      simp [Select, SelectWithCalls, if_neg h, hq, expectedMatrixErr, ParserValue.kindName]
  | strValue t s =>
    refine ⟨?_, ?_, by simp only [ParserValue.kindName]; decide⟩ <;>
      simp [Select, SelectWithCalls, if_neg h, hq, expectedMatrixErr, ParserValue.kindName]

/-- C3 witness: the vector case of `TestSelect` — empty series list, the
pinned error text, and the message contains the actual-type name. -/
theorem select_non_matrix_error_witness :
    (Select qaVec []).m = [] ∧
    (Select qaVec []).err =
      some ("error querying Prometheus, expected type matrix response. actual type "
        ++ (ParserValue.vector []).kindName) ∧
    strContainsSub
      ("error querying Prometheus, expected type matrix response. actual type "
        ++ (ParserValue.vector []).kindName) (ParserValue.vector []).kindName = true :=
  select_non_matrix_error qaVec [] (.vector []) [] (by decide) rfl
    (fun _ hm => ParserValue.noConfusion hm)

/-- C4: for every Select call where the query function returns an error,
the result carries exactly that error and an empty series list — whatever
value and warnings were also returned — and no retry happens: the call
list is still the single rendered query. -/
theorem select_error_propagated (db : queryAccess) (ms : List Matcher)
    (e : String) (v : ParserValue) (ws : List String)
    (h : db.mint ≠ db.maxt)
    (hq : db.query (selectQueryStr db ms) db.maxt = ⟨v, ws, some e⟩) :
    (Select db ms).err = some e ∧ (Select db ms).m = [] ∧
    selectCalls db ms = [(selectQueryStr db ms, db.maxt)] := by
  refine ⟨?_, ?_, ?_⟩ <;> simp [Select, selectCalls, SelectWithCalls, if_neg h, hq]

/-- Stub query function failing with `"Query Error"`, as the `TestSelect`
case "queryfunc returns an error". -/
def errQF : QueryFunc := fun _ _ => ⟨.matrix [], ["ignored warning"], some "Query Error"⟩

/-- The error-case receiver of `TestSelect`: range `[1000, 2000]`. -/
def qaErr : queryAccess := ⟨1000, 2000, errQF⟩

/-- C4 witness: the `TestSelect` error case propagates `"Query Error"`
with an empty series list and a single issued query, even though the
reply also carried a warning. -/
theorem select_error_propagated_witness :
    (Select qaErr []).err = some "Query Error" ∧ (Select qaErr []).m = [] ∧
    selectCalls qaErr [] = [(selectQueryStr qaErr [], 2000)] :=
  select_error_propagated qaErr [] "Query Error" (.matrix []) ["ignored warning"]
    (by decide) rfl

/-- C5: for every non-degenerate Select call, the result's annotation set
is exactly the reply's warning list wrapped 1:1 as error-shaped
annotations — whatever series data or error the reply also carried — and
each warning appears in the result as often as the query function
returned it. -/
theorem select_warnings_one_to_one (db : queryAccess) (ms : List Matcher)
    (h : db.mint ≠ db.maxt) :
    (Select db ms).warnings =
      warningsToErrs ((db.query (selectQueryStr db ms) db.maxt).warnings) ∧
    ∀ w : String,
      (Select db ms).warnings.count ⟨w⟩ =
        ((db.query (selectQueryStr db ms) db.maxt).warnings).count w := by
  have hmk : Function.Injective WarnErr.mk := fun a b hab => congrArg WarnErr.msg hab
  rcases hr : db.query (selectQueryStr db ms) db.maxt with ⟨v, ws, err⟩
  have hw : (Select db ms).warnings = warningsToErrs ws := by
    cases err with
    | some e => simp [Select, SelectWithCalls, if_neg h, hr]
    | none =>
      cases v <;> simp [Select, SelectWithCalls, if_neg h, hr]
  refine ⟨hw, fun w => ?_⟩
  rw [hw, warningsToErrs, List.count_map_of_injective _ WarnErr.mk hmk]

/-- Stub query function succeeding with one warning, as the `TestSelect`
case "queryfunc returns a warning". -/
def warnQF : QueryFunc := fun _ _ => ⟨.matrix [], ["warning test"], none⟩

/-- The warning-case receiver of `TestSelect`: range `[0, 1000]`. -/
def qaWarn : queryAccess := ⟨0, 1000, warnQF⟩

/-- C5 witness: the `TestSelect` warning case yields exactly one
error-shaped annotation `"warning test"`. -/
theorem select_warnings_one_to_one_witness :
    (Select qaWarn []).warnings = [⟨"warning test"⟩] ∧
    (Select qaWarn []).warnings.count ⟨"warning test"⟩ = 1 := by
  have h := select_warnings_one_to_one qaWarn [] (by decide)
  exact ⟨by rw [h.1]; rfl, by rw [h.2 "warning test"]; decide⟩

/-- C6: for every Select call where the query function returns a matrix,
the series (label sets plus float points, in reply order) are converted
into the result verbatim, with no error and the reply's warnings. -/
theorem select_matrix_verbatim (db : queryAccess) (ms : List Matcher)
    (m : List PromSeries) (ws : List String)
    (h : db.mint ≠ db.maxt)
    (hq : db.query (selectQueryStr db ms) db.maxt = ⟨.matrix m, ws, none⟩) :
    Select db ms = ⟨m, warningsToErrs ws, none⟩ := by
  simp [Select, SelectWithCalls, if_neg h, hq]

/-- The one backend series of the spec's success scenario: labels
`__name__="testLabel"`, single point `(600613, 1.0)`. -/
def scenarioSeries : PromSeries :=
  ⟨[("__name__", "testLabel")], [⟨600613, 1⟩]⟩

/-- The `TestSelect` success-case stub: answers the expected rendered
query at the expected instant with the one-series matrix, and fails on
anything else. -/
def scenarioQF : QueryFunc := fun q t =>
  if q = "\x7b__name__=\"testLabel\"\x7d[1000s]" ∧ t = 2000 then
    ⟨.matrix [scenarioSeries], [], none⟩
  else
    ⟨.matrix [], [], some "unexpected query or instant"⟩

/-- The success-case receiver of `TestSelect`: range `[1000, 2000]`. -/
def qaScenario : queryAccess := ⟨1000, 2000, scenarioQF⟩

/-- The `__name__="testLabel"` matcher used by `TestSelect`. -/
def testMatcher : Matcher := ⟨.matchEqual, "__name__", "testLabel"⟩

/-- C6 witness: the spec scenario — selector `\x7b__name__="testLabel"\x7d`,
range `[1000, 2000]`, backend matrix with the single point
`(600613, 1.0)` — yields exactly that series, no warnings, no error. -/
theorem select_matrix_verbatim_witness :
    Select qaScenario [testMatcher] = ⟨[scenarioSeries], [], none⟩ :=
  select_matrix_verbatim qaScenario [testMatcher] [scenarioSeries] []
    (by decide) (by decide)

/-!
Part 2: the Rule/Alert Federation Proxy.  The proxy implementation
(`cmd/frontend/internal/rule`) is not part of the source snapshot; only
its caller `cmd/frontend/main.go` is.  The merge is therefore modelled
from the spec (section 4.3), generically in the entry type so that both
rule groups and alerts are covered.
-/

/-- One named rule group as returned by a backend's `/api/v1/rules`. -/
structure RuleGroup where
  name : String
  rules : List String
deriving DecidableEq, Repr

/-- One alert as returned by a backend's `/api/v1/alerts`. -/
structure Alert where
  alabels : List (String × String)
  state : String
deriving DecidableEq, Repr

/-- What one backend contributed to a federated request: its parsed entry
list, or a transport/parse/timeout failure. -/
abbrev BackendReply (α : Type) := Except String (List α)

/-- Whether the backend call succeeded. -/
def replyOk {α : Type} : BackendReply α → Bool
  | .ok _ => true
  | .error _ => false

/-- The entries a backend contributes to the merge: its payload on
success, nothing on failure. -/
def backendEntries {α : Type} : BackendReply α → List α
  | .ok es => es
  | .error _ => []

/-- The accumulated state of the federation merge: concatenated entries
and the number of backends that succeeded. -/
structure FedOutcome (α : Type) where
  entries : List α
  okCount : Nat
deriving DecidableEq, Repr

/-- One merge step: append a successful backend's payload, skip a failed
backend. -/
def fedStep {α : Type} (acc : FedOutcome α) : BackendReply α → FedOutcome α
  | .ok es => ⟨acc.entries ++ es, acc.okCount + 1⟩
  | .error _ => acc

/-- Modelled from the spec: the federation merge of the Rule/Alert
Federation Proxy (section 4.3; implementation `cmd/frontend/internal/rule`
absent from the snapshot): walk the backend replies in fixed backend-list
order, concatenating each successful payload as-is — no sorting, no
deduplication — and skipping failed backends. -/
def federate {α : Type} (backends : List (BackendReply α)) : FedOutcome α :=
  backends.foldl fedStep ⟨[], 0⟩

/-- The HTTP status class of a federated response. -/
inductive FedStatus where
  | success
  | upstreamError
deriving DecidableEq, Repr

/-- Modelled from the spec: the response status of a federated request
(section 4.3 item 4): success if at least one backend succeeded,
upstream-error if all failed. -/
def fedStatus {α : Type} (backends : List (BackendReply α)) : FedStatus :=
  if (federate backends).okCount = 0 then .upstreamError else .success

/-- How many groups of a given name a rule-group list holds. -/
def countNamed (n : String) (gs : List RuleGroup) : Nat :=
  (gs.filter (fun g => g.name == n)).length

theorem fedStep_entries {α : Type} (acc : FedOutcome α) (b : BackendReply α) :
    (fedStep acc b).entries = acc.entries ++ backendEntries b := by
  cases b <;> simp [fedStep, backendEntries]

theorem fedStep_okCount {α : Type} (acc : FedOutcome α) (b : BackendReply α) :
    (fedStep acc b).okCount = acc.okCount + (if replyOk b then 1 else 0) := by
  cases b <;> simp [fedStep, replyOk]

theorem federate_entries_aux {α : Type} (backends : List (BackendReply α))
    (acc : FedOutcome α) :
    (backends.foldl fedStep acc).entries =
      acc.entries ++ (backends.map backendEntries).flatten := by
  induction backends generalizing acc with
  | nil => simp
  | cons b bs ih => simp [List.foldl_cons, ih, fedStep_entries, List.append_assoc]

/-- The merged entry list is the in-order concatenation of the successful
payloads, failed backends contributing nothing. -/
theorem federate_entries {α : Type} (backends : List (BackendReply α)) :
    (federate backends).entries = (backends.map backendEntries).flatten := by
  simpa using federate_entries_aux backends ⟨[], 0⟩

theorem federate_okCount_aux {α : Type} (backends : List (BackendReply α))
    (acc : FedOutcome α) :
    (backends.foldl fedStep acc).okCount = acc.okCount + backends.countP replyOk := by
  induction backends generalizing acc with
  | nil => simp
  | cons b bs ih =>
    simp [List.foldl_cons, ih, fedStep_okCount, List.countP_cons]
    omega

/-- The success counter counts exactly the successful backends. -/
theorem federate_okCount {α : Type} (backends : List (BackendReply α)) :
    (federate backends).okCount = backends.countP replyOk := by
  simpa using federate_okCount_aux backends ⟨[], 0⟩

theorem countNamed_append (n : String) (l1 l2 : List RuleGroup) :
    countNamed n (l1 ++ l2) = countNamed n l1 + countNamed n l2 := by
  simp [countNamed, List.filter_append]

/-- C7: for every federated request the successful backend payloads are
concatenated in fixed backend-list order with no deduplication: the merged
list is the in-order flattening of the per-backend entries, and the number
of groups bearing any given name is the sum of the per-backend counts —
an identically named group returned by two backends appears twice. -/
theorem federate_order_no_dedup (backends : List (BackendReply RuleGroup)) :
    (federate backends).entries = (backends.map backendEntries).flatten ∧
    ∀ n : String,
      countNamed n (federate backends).entries =
        (backends.map (fun b => countNamed n (backendEntries b))).sum := by
  refine ⟨federate_entries backends, fun n => ?_⟩
  rw [federate_entries]
  induction backends with
  | nil => rfl
  | cons b bs ih => simp [countNamed_append, ih]

/-- The proxy reports success exactly when some backend succeeded. -/
theorem fedStatus_success_iff {α : Type} (backends : List (BackendReply α)) :
    fedStatus backends = .success ↔ ∃ b ∈ backends, replyOk b = true := by
  unfold fedStatus
  rw [federate_okCount]
  by_cases hc : backends.countP replyOk = 0
  · rw [if_pos hc]
    rw [List.countP_eq_zero] at hc
    constructor
    · intro h; exact absurd h (by simp)
    · rintro ⟨b, hb, hok⟩; exact absurd hok (by simp [hc b hb])
  · rw [if_neg hc]
    constructor
    · intro _
      obtain ⟨b, hb, hok⟩ := List.countP_pos_iff.mp (Nat.pos_of_ne_zero hc)
      exact ⟨b, hb, hok⟩
    · intro _; rfl

/-- The proxy reports an upstream error exactly when every backend failed. -/
theorem fedStatus_upstream_iff {α : Type} (backends : List (BackendReply α)) :
    fedStatus backends = .upstreamError ↔ ∀ b ∈ backends, replyOk b = false := by
  unfold fedStatus
  rw [federate_okCount]
  by_cases hc : backends.countP replyOk = 0
  · rw [if_pos hc]
    rw [List.countP_eq_zero] at hc
    constructor
    · intro _ b hb; simpa using hc b hb
    · intro _; rfl
  · rw [if_neg hc]
    constructor
    · intro h; exact absurd h (by simp)
    · intro hall
      exfalso
      apply hc
      rw [List.countP_eq_zero]
      intro b hb
      simp [hall b hb]

/-- C8: for every federated request with a failed backend, that backend
contributes no entries — removing it leaves the merged entries unchanged —
the request is not aborted, and the status is success exactly when at
least one backend succeeded, upstream-error exactly when all failed. -/
theorem federate_partial_failure {α : Type} (backends : List (BackendReply α))
    (e : String) (pre post : List (BackendReply α))
    (hsplit : backends = pre ++ (Except.error e :: post)) :
    (federate backends).entries = (federate (pre ++ post)).entries ∧
    (fedStatus backends = .success ↔ ∃ b ∈ backends, replyOk b = true) ∧
    (fedStatus backends = .upstreamError ↔ ∀ b ∈ backends, replyOk b = false) := by
  subst hsplit
  refine ⟨?_, fedStatus_success_iff _, fedStatus_upstream_iff _⟩
  rw [federate_entries, federate_entries]
  simp [backendEntries]

/-- First backend's rule group of the three-backend scenario. -/
def grpA : RuleGroup := ⟨"shared-group", ["rule one"]⟩

/-- Third backend's rule group of the three-backend scenario. -/
def grpB : RuleGroup := ⟨"shared-group", ["rule two"]⟩

/-- The spec's three-backend scenario: backend 2 times out. -/
def scenario3 : List (BackendReply RuleGroup) :=
  [Except.ok [grpA], Except.error "timeout", Except.ok [grpB]]

/-- C8 witness: with backends 1 and 3 succeeding and backend 2 timing
out, the merged response holds backend 1's and backend 3's entries in
that order, nothing from backend 2, and the request succeeds. -/
theorem federate_partial_failure_witness :
    (federate scenario3).entries = [grpA, grpB] ∧ fedStatus scenario3 = .success := by
  have h := federate_partial_failure scenario3 "timeout"
    [Except.ok [grpA]] [Except.ok [grpB]] rfl
  refine ⟨by rw [h.1]; rfl, ?_⟩
  exact h.2.1.mpr ⟨Except.ok [grpA], List.mem_cons_self _ _, rfl⟩

/-!
Part 3: the query frontend process, from `src/cmd/frontend/main.go`
(present in the snapshot): flag set, hard-coded rule-proxy client
timeout, route table, `http.ServeMux` resolution, and the basic-auth
wrapper `authenticate`.
-/

/-- The frontend's command-line configuration, one field per flag
registered in `main.go`: `query.project-id`, `query.credentials-file`,
`web.listen-address`, `web.external-url`, `query.target-url`,
`rules.target-urls`, `log.level`. -/
structure FrontendConfig where
  projectID : String
  credentialsFile : String
  listenAddress : String
  externalURL : String
  targetURL : String
  ruleTargetURLs : String
  logLevel : String
deriving DecidableEq, Repr

/-- An HTTP client as far as the proxy model needs it: its timeout. -/
structure HTTPClientModel where
  timeoutSeconds : Nat
deriving DecidableEq, Repr

/-- The client handed to `rule.NewProxy` in `main.go`:
`&http.Client\x7bTimeout: 30 * time.Second\x7d` — a constant, built from
no flag of the configuration. -/
def ruleProxyClient (_cfg : FrontendConfig) : HTTPClientModel :=
  ⟨30⟩

/-- The timeout under which the per-backend GET for backend index `i`
runs: every backend request goes through the one shared client. -/
def backendGETTimeoutSeconds (cfg : FrontendConfig) (_i : Nat) : Nat :=
  (ruleProxyClient cfg).timeoutSeconds

/-- C9 counterexample: the rule-proxy timeout is not configurable — no
two frontend configurations give any backend GET different timeouts. -/
theorem backend_timeout_cex :
    ¬ ∃ c c' : FrontendConfig, ∃ i : Nat,
        backendGETTimeoutSeconds c i ≠ backendGETTimeoutSeconds c' i := by
  rintro ⟨c, c', i, h⟩
  exact h rfl

/-- C9 (amended): every per-backend GET of the federation proxy runs
under the shared client timeout, fixed at 30 seconds — bounded, on the
order of tens of seconds — identical for every configuration and every
backend, and not configurable. -/
theorem backend_timeout_fixed (c c' : FrontendConfig) (i j : Nat) :
    backendGETTimeoutSeconds c i = 30 ∧
    backendGETTimeoutSeconds c i = backendGETTimeoutSeconds c' j ∧
    10 ≤ backendGETTimeoutSeconds c i ∧ backendGETTimeoutSeconds c i < 100 :=
  ⟨rfl, rfl, (by decide : (10 : Nat) ≤ 30), (by decide : (30 : Nat) < 100)⟩

/-- The handlers `main.go` registers on the default `ServeMux`. -/
inductive RouteTarget where
  | buildinfoH
  | metricsH
  | ruleGroupsH
  | rulesSubtreeH
  | alertsH
  | apiH
  | healthyH
  | readyH
  | rootH
deriving DecidableEq, Repr

/-- The route table of `main.go` lines 191-207, pattern by pattern:
buildinfo, metrics, the two rule-proxy handlers (with the
`/api/v1/rules/` subtree sent to `http.NotFoundHandler()`), alerts, the
authenticated GCM forwarder under `/api/`, the health endpoints, and the
authenticated UI at the root. -/
def frontendRoutes : List (String × RouteTarget) :=
  [("/api/v1/status/buildinfo", .buildinfoH),
   ("/metrics", .metricsH),
   ("/api/v1/rules", .ruleGroupsH),
   ("/api/v1/rules/", .rulesSubtreeH),
   ("/api/v1/alerts", .alertsH),
   ("/api/", .apiH),
   ("/-/healthy", .healthyH),
   ("/-/ready", .readyH),
   ("/", .rootH)]

/-- Go `http.ServeMux` pattern matching: a pattern whose last character
is a slash matches every path it prefixes (a rooted subtree); any other
pattern matches the exact path only. -/
def patMatches (pat p : String) : Bool :=
  if pat.data.getLast? == some '/' then pat.data.isPrefixOf p.data else pat == p

/-- The first longest entry of a route list (Go `ServeMux` precedence:
the longest matching pattern wins). -/
def pickLongest : List (String × RouteTarget) → Option (String × RouteTarget)
  | [] => none
  | r :: rest =>
    match pickLongest rest with
    | none => some r
    | some b => if b.1.length > r.1.length then some b else some r

/-- Go `http.ServeMux` resolution over the frontend's route table: among
the registered patterns matching the path, the longest wins. -/
def muxResolve (p : String) : Option RouteTarget :=
  (pickLongest (frontendRoutes.filter (fun r => patMatches r.1 p))).map Prod.snd

/-- The environment `authenticate` reads: the `AUTH_USERNAME` and
`AUTH_PASSWORD` variables. -/
structure Env where
  authUsername : String
  authPassword : String
deriving DecidableEq, Repr

/-- An inbound request as the routing and auth code sees it: URL path and
the decoded basic-auth credentials, if any. -/
structure HttpRequest where
  path : String
  basicAuth : Option (String × String)
deriving DecidableEq, Repr

/-- What the frontend answers, abstracted per handler. -/
inductive FrontendResp where
  | buildinfoResp
  | metricsResp
  | rulesResp (gs : List RuleGroup)
  | alertsResp (al : List Alert)
  | pageNotFound
  | unauthorized
  | forbidden
  | gcmProxied
  | uiPage
  | healthyResp
  | readyResp
deriving DecidableEq, Repr

/-- The `authenticate` wrapper of `main.go`: when both auth environment
variables are non-empty, a request without basic-auth credentials gets
401 and one with wrong credentials gets 403; otherwise the wrapped
handler answers. -/
def authCheck (env : Env) (req : HttpRequest) (next : FrontendResp) : FrontendResp :=
  if env.authUsername.length > 0 && env.authPassword.length > 0 then
    match req.basicAuth with
    | none => .unauthorized
    | some (u, pw) =>
      if u == env.authUsername && pw == env.authPassword then next else .forbidden
  else
    next

/-- One frontend request served, as wired in `main.go`: resolve the path
against the route table, answer the rule/alert federation from the
backend replies with no auth wrapper, 404 the `/api/v1/rules/` subtree,
and wrap only the GCM forwarder and the UI in `authCheck`. -/
def serveFrontend (env : Env) (rb : List (BackendReply RuleGroup))
    (ab : List (BackendReply Alert)) (req : HttpRequest) : FrontendResp :=
  match muxResolve req.path with
  | some .buildinfoH => .buildinfoResp
  | some .metricsH => .metricsResp
  | some .ruleGroupsH => .rulesResp (federate rb).entries
  | some .rulesSubtreeH => .pageNotFound
  | some .alertsH => .alertsResp (federate ab).entries
  | some .apiH => authCheck env req .gcmProxied
  | some .healthyH => .healthyResp
  | some .readyH => .readyResp
  | some .rootH => authCheck env req .uiPage
  | none => .pageNotFound

theorem ne_extension_of_not_pre (pat lit s : String)
    (h : lit.data.isPrefixOf pat.data = false) : pat ≠ lit ++ s := by
  intro heq
  rw [heq, String.data_append] at h
  have hture : lit.data.isPrefixOf (lit.data ++ s.data) = true :=
    List.isPrefixOf_iff_prefix.mpr (List.prefix_append _ _)
  exact Bool.noConfusion (hture.symm.trans h)

theorem pre_extension_of_pre (pat lit s : String)
    (h : pat.data.isPrefixOf lit.data = true) :
    pat.data.isPrefixOf (lit ++ s).data = true := by
  rw [String.data_append]
  exact List.isPrefixOf_iff_prefix.mpr
    ((List.isPrefixOf_iff_prefix.mp h).trans (List.prefix_append _ _))

theorem patMatches_exact_extension (pat lit s : String)
    (hends : (pat.data.getLast? == some '/') = false)
    (hpre : lit.data.isPrefixOf pat.data = false) :
    patMatches pat (lit ++ s) = false := by
  simp only [patMatches, hends, Bool.false_eq_true, if_false]
  exact beq_eq_false_iff_ne.mpr (ne_extension_of_not_pre pat lit s hpre)

theorem patMatches_subtree_extension (pat lit s : String)
    (hends : (pat.data.getLast? == some '/') = true)
    (hpre : pat.data.isPrefixOf lit.data = true) :
    patMatches pat (lit ++ s) = true := by
  simp only [patMatches, hends, if_true]
  exact pre_extension_of_pre pat lit s hpre

/-- Every path under the `/api/v1/rules/` subtree resolves to the
registered not-found handler: the subtree pattern is the longest match. -/
theorem muxResolve_rules_subtree (s : String) :
    muxResolve ("/api/v1/rules/" ++ s) = some RouteTarget.rulesSubtreeH := by
  have h1 := patMatches_exact_extension "/api/v1/status/buildinfo" "/api/v1/rules/" s
    (by decide) (by decide)
  have h2 := patMatches_exact_extension "/metrics" "/api/v1/rules/" s
    (by decide) (by decide)
  have h3 := patMatches_exact_extension "/api/v1/rules" "/api/v1/rules/" s
    (by decide) (by decide)
  have h4 := patMatches_subtree_extension "/api/v1/rules/" "/api/v1/rules/" s
    (by decide) (by decide)
  have h5 := patMatches_exact_extension "/api/v1/alerts" "/api/v1/rules/" s
    (by decide) (by decide)
  have h6 := patMatches_subtree_extension "/api/" "/api/v1/rules/" s
    (by decide) (by decide)
  have h7 := patMatches_exact_extension "/-/healthy" "/api/v1/rules/" s
    (by decide) (by decide)
  have h8 := patMatches_exact_extension "/-/ready" "/api/v1/rules/" s
    (by decide) (by decide)
  have h9 := patMatches_subtree_extension "/" "/api/v1/rules/" s
    (by decide) (by decide)
  simp only [muxResolve, frontendRoutes, List.filter, h1, h2, h3, h4, h5, h6, h7, h8, h9]
  rfl

/-- C10: requests to `/api/v1/rules` and `/api/v1/alerts` are served from
the federation proxy with no basic-auth check: the response is identical
for any two auth environments, the bodies are the federated merges, and
every path under `/api/v1/rules/` gets 404 instead of being proxied. -/
theorem rules_alerts_bypass_auth (env env' : Env)
    (rb : List (BackendReply RuleGroup)) (ab : List (BackendReply Alert))
    (req : HttpRequest) (s : String)
    (h : req.path = "/api/v1/rules" ∨ req.path = "/api/v1/alerts") :
    serveFrontend env rb ab req = serveFrontend env' rb ab req ∧
    serveFrontend env rb ab ⟨"/api/v1/rules", req.basicAuth⟩ =
      .rulesResp (federate rb).entries ∧
    serveFrontend env rb ab ⟨"/api/v1/alerts", req.basicAuth⟩ =
      .alertsResp (federate ab).entries ∧
    serveFrontend env rb ab ⟨"/api/v1/rules/" ++ s, req.basicAuth⟩ = .pageNotFound := by
  obtain ⟨p, auth⟩ := req
  refine ⟨?_, by rfl, by rfl, ?_⟩
  · rcases h with h | h <;> (dsimp only at h; subst h; rfl)
  · show serveFrontend env rb ab ⟨"/api/v1/rules/" ++ s, auth⟩ = .pageNotFound
    simp only [serveFrontend, muxResolve_rules_subtree]

/-- One-backend rule replies for the C10 witness. -/
def rbW : List (BackendReply RuleGroup) := [Except.ok [⟨"example-group", ["r1"]⟩]]

/-- One-backend alert replies for the C10 witness. -/
def abW : List (BackendReply Alert) := [Except.ok [⟨[("alertname", "A")], "firing"⟩]]

/-- C10 witness: with auth credentials set versus unset, `/api/v1/rules`
answers identically, both rule and alert endpoints answer the federated
merge, and `/api/v1/rules/sub` gets 404. -/
theorem rules_alerts_bypass_auth_witness :
    serveFrontend ⟨"alice", "secret"⟩ rbW abW ⟨"/api/v1/rules", none⟩ =
      serveFrontend ⟨"", ""⟩ rbW abW ⟨"/api/v1/rules", none⟩ ∧
    serveFrontend ⟨"alice", "secret"⟩ rbW abW ⟨"/api/v1/rules", none⟩ =
      .rulesResp (federate rbW).entries ∧
    serveFrontend ⟨"alice", "secret"⟩ rbW abW ⟨"/api/v1/alerts", none⟩ =
      .alertsResp (federate abW).entries ∧
    serveFrontend ⟨"alice", "secret"⟩ rbW abW ⟨"/api/v1/rules/" ++ "sub", none⟩ =
      .pageNotFound :=
  rules_alerts_bypass_auth ⟨"alice", "secret"⟩ ⟨"", ""⟩ rbW abW
    ⟨"/api/v1/rules", none⟩ "sub" (Or.inl rfl)

end PromEngine
